import Mathlib

/-!
Verification of the discovery-and-forwarding core of the se3 backend:
the shared registry client (`src/shared/service-discovery.js`) and the
API gateway's dynamic proxy with per-service circuit breaker
(`src/api-gateway/index.js`).

Conventions of the embedding:
* Wall-clock times are `Int` milliseconds (JS `Date.now()` arithmetic).
* The backoff delay is an exact rational (JS multiplies a float by 1.5).
* The Consul transport is a parameter (`RegistryEnv`): for each attempt
  number it yields either the raw node list or a transport error.
* `Math.random()`-based selection is a `randomIndex` parameter.
* Thrown JS errors are the `failed` constructor carrying the message.
-/

namespace SE3

/-- One resolved backend instance, as extracted from a Consul node record. -/
structure ServiceInstance where
  id : String
  name : String
  address : String
  port : Nat
  tags : List String
deriving DecidableEq, Repr, Inhabited

/-- Raw record returned by `consul.catalog.service.nodes`. -/
structure RawService where
  serviceID : String
  serviceName : String
  serviceAddress : String
  nodeAddress : String
  servicePort : Nat
  serviceTags : Option (List String)
deriving DecidableEq, Repr, Inhabited

/-- Field extraction performed on each raw node
(`address: svc.ServiceAddress || svc.Address`; JS `||` treats the empty
string as falsy; `tags: svc.ServiceTags || []`). -/
def toInstance (svc : RawService) : ServiceInstance :=
  { id := svc.serviceID
    name := svc.serviceName
    address := if svc.serviceAddress = "" then svc.nodeAddress else svc.serviceAddress
    port := svc.servicePort
    tags := svc.serviceTags.getD [] }

/-- Outcome of one JS async operation: resolved value or thrown error message. -/
inductive Attempt (α : Type) where
  | success (value : α)
  | failure (err : String)
deriving DecidableEq, Repr

/-- Whether an attempt outcome is a thrown error. -/
def Attempt.isFailure {α : Type} : Attempt α → Bool
  | .success _ => false
  | .failure _ => true

/-- Trace of one `withRetry` run: final outcome, number of invocations of
the wrapped operation, and the sequence of back-off waits performed. -/
structure RetryTrace (α : Type) where
  result : Attempt α
  calls : Nat
  waits : List ℚ
deriving DecidableEq, Repr

-- Configuration defaults (`service-discovery.js` module constants).
def MAX_RETRIES : Nat := 3
def RETRY_DELAY_MS : ℚ := 1000
def CACHE_TTL_MS : Int := 5000
def DATACENTER : String := "dc1"
def NODE_ENV : String := "development"

/-- Loop body of `withRetry`: `attempt` is the 1-based attempt counter,
`fuel` the number of attempts still allowed (`retries - attempt + 1`).
On failure with attempts remaining it waits `delay` and multiplies the
delay by 1.5; the last failure is propagated. -/
def withRetryAux {α : Type} (op : Nat → Attempt α) (attempt fuel : Nat) (delay : ℚ) :
    RetryTrace α :=
  match fuel with
  | 0 => ⟨.failure "", 0, []⟩
  | f + 1 =>
    match op attempt with
    | .success v => ⟨.success v, 1, []⟩
    | .failure e =>
      if f = 0 then ⟨.failure e, 1, []⟩
      else
        let rest := withRetryAux op (attempt + 1) f (delay * (3/2))
        ⟨rest.result, rest.calls + 1, delay :: rest.waits⟩

/-- `withRetry(operation, retries, delay)` of `service-discovery.js`. -/
def withRetry {α : Type} (op : Nat → Attempt α) (retries : Nat) (delay : ℚ) :
    RetryTrace α :=
  withRetryAux op 1 retries delay

/-- Result of a resolution: the selected instance or the thrown error message. -/
inductive DiscResult where
  | found (svc : ServiceInstance)
  | failed (err : String)
deriving DecidableEq, Repr

/-- One cache slot of the in-memory `serviceCache` map. -/
structure CacheEntry where
  service : ServiceInstance
  timestamp : Int
deriving DecidableEq, Repr

/-- The `serviceCache` map, embedded as an association list where an
insert shadows earlier bindings of the same key. -/
abbrev Cache := List (String × CacheEntry)

/-- `serviceCache.get(key)` (and `has` via `isSome`). -/
def cacheGet (cache : Cache) (key : String) : Option CacheEntry :=
  (cache.find? (fun p => p.1 == key)).map (·.2)

/-- `serviceCache.set(key, entry)`. -/
def cacheSet (cache : Cache) (key : String) (entry : CacheEntry) : Cache :=
  (key, entry) :: cache

/-- Cache key: `` `${serviceName}-${tag || 'default'}` ``. -/
def cacheKey (serviceName : String) (tag : Option String) : String :=
  serviceName ++ "-" ++ tag.getD "default"

/-- Behaviour of the Consul transport during one resolution, over raw
node records of type `ρ`: whether `initConsul` (itself retried) fails,
and the per-attempt outcome of the node query. -/
structure RegistryEnv (ρ : Type) where
  consulErr : Option String
  nodes : Nat → Attempt (List ρ)

/-- Parameters of the registry query that was issued: service name,
datacenter, optional tag filter, and whether only passing (healthy)
instances were requested. -/
structure QueryParams where
  service : String
  dc : String
  tag : Option String
  passingOnly : Bool
deriving DecidableEq, Repr

/-- Full outcome of one `discoverService` call: result, cache afterwards,
number of live registry queries issued, and the query parameters used
(`none` when no live query was made). -/
structure DiscoveryOutcome where
  result : DiscResult
  cache : Cache
  liveQueries : Nat
  query : Option QueryParams
deriving DecidableEq, Repr

/-- The fresh-cache check at the top of `discoverService`:
an entry is returned iff present and `cached.timestamp > Date.now() - CACHE_TTL_MS`. -/
def freshCacheHit (cache : Cache) (key : String) (now : Int) : Option CacheEntry :=
  match cacheGet cache key with
  | some cached => if cached.timestamp > now - CACHE_TTL_MS then some cached else none
  | none => none

/-- The catch-block of `discoverService`: fall back to a cached value
even if expired, otherwise rethrow naming the service. -/
def discoveryFallback (cache : Cache) (key serviceName : String) (queries : Nat)
    (qp : Option QueryParams) (msg : String) : DiscoveryOutcome :=
  match cacheGet cache key with
  | some cached => ⟨.found cached.service, cache, queries, qp⟩
  | none =>
    ⟨.failed ("Service discovery failed for " ++ serviceName ++ ": " ++ msg),
      cache, queries, qp⟩

/-- The operation retried inside `discoverService`: one
`consul.catalog.service.nodes` call, which throws when the result is empty. -/
def nodesOp (env : RegistryEnv RawService) (serviceName : String) :
    Nat → Attempt (List RawService) := fun n =>
  match env.nodes n with
  | .success result =>
    if result.length = 0 then
      .failure ("No instances of " ++ serviceName ++ " found in Consul")
    else .success result
  | .failure e => .failure e

/-- The retried live lookup of `discoverService`. -/
def liveQuery (env : RegistryEnv RawService) (serviceName : String) :
    RetryTrace (List RawService) :=
  withRetry (nodesOp env serviceName) MAX_RETRIES RETRY_DELAY_MS

/-- `Math.floor(Math.random() * verifiedServices.length)` selection,
with the random draw supplied as `randomIndex`. -/
def selectInstance (services : List RawService) (randomIndex : Nat) : ServiceInstance :=
  (services.map toInstance).getD randomIndex default

/-- `discoverService(serviceName, tag, bypassCache)` of
`src/shared/service-discovery.js` (the module every service imports). -/
def discoverService (env : RegistryEnv RawService) (cache : Cache) (serviceName : String)
    (tag : Option String) (bypassCache : Bool) (now : Int) (randomIndex : Nat) :
    DiscoveryOutcome :=
  let key := cacheKey serviceName tag
  match (if bypassCache then none else freshCacheHit cache key now) with
  | some cached => ⟨.found cached.service, cache, 0, none⟩
  | none =>
    match env.consulErr with
    | some msg => discoveryFallback cache key serviceName 0 none msg
    | none =>
      let qp : QueryParams := ⟨serviceName, DATACENTER, tag, false⟩
      let tr := liveQuery env serviceName
      match tr.result with
      | .success result =>
        let selectedService := selectInstance result randomIndex
        ⟨.found selectedService,
          cacheSet cache key ⟨selectedService, now⟩, tr.calls, some qp⟩
      | .failure e => discoveryFallback cache key serviceName tr.calls (some qp) e

/-! The related health-verifying revision of `service-discovery.js`
(second document in `src/shared/service-discovery.js`): it queries
`consul.health.service` with `passing: true` and `tag: tag || NODE_ENV`,
then double-checks each instance with a direct `/health` probe
(`verifyServiceHealth`) before trusting it. The direct probe's verdict
is the `healthy` parameter; `env.nodes` yields the already-extracted
`svc.Service` records per attempt. -/
namespace HealthVerified

/-- The catch-block of this revision: stale-cache fallback, otherwise
rethrow with `Service discovery failed: message` (no service name prefix). -/
def fallback (cache : Cache) (key : String) (queries : Nat)
    (qp : Option QueryParams) (msg : String) : DiscoveryOutcome :=
  match cacheGet cache key with
  | some cached => ⟨.found cached.service, cache, queries, qp⟩
  | none => ⟨.failed ("Service discovery failed: " ++ msg), cache, queries, qp⟩

/-- The retried operation: one `consul.health.service` call, throwing when
no passing instance is returned. -/
def nodesOp (env : RegistryEnv ServiceInstance) (serviceName : String) :
    Nat → Attempt (List ServiceInstance) := fun n =>
  match env.nodes n with
  | .success result =>
    if result.length = 0 then
      .failure ("No healthy instances of " ++ serviceName ++ " found")
    else .success result
  | .failure e => .failure e

/-- The retried live lookup of this revision. -/
def liveQuery (env : RegistryEnv ServiceInstance) (serviceName : String) :
    RetryTrace (List ServiceInstance) :=
  withRetry (nodesOp env serviceName) MAX_RETRIES RETRY_DELAY_MS

/-- `discoverService` of the health-verifying revision: instances that
fail the direct `verifyServiceHealth` probe are dropped; if none remain,
`No verified healthy instances` is thrown inside the try-block and the
catch applies the stale-cache fallback. -/
def discoverService (env : RegistryEnv ServiceInstance)
    (healthy : ServiceInstance → Bool) (cache : Cache) (serviceName : String)
    (tag : Option String) (bypassCache : Bool) (now : Int) (randomIndex : Nat) :
    DiscoveryOutcome :=
  let key := cacheKey serviceName tag
  match (if bypassCache then none else freshCacheHit cache key now) with
  | some cached => ⟨.found cached.service, cache, 0, none⟩
  | none =>
    match env.consulErr with
    | some msg => fallback cache key 0 none msg
    | none =>
      let qp : QueryParams := ⟨serviceName, DATACENTER, some (tag.getD NODE_ENV), true⟩
      let tr := liveQuery env serviceName
      match tr.result with
      | .success services =>
        let verifiedServices := services.filter healthy
        if verifiedServices.length = 0 then
          fallback cache key tr.calls (some qp)
            ("No verified healthy instances of " ++ serviceName ++ " found")
        else
          let selectedService := verifiedServices.getD randomIndex default
          ⟨.found selectedService,
            cacheSet cache key ⟨selectedService, now⟩, tr.calls, some qp⟩
      | .failure e => fallback cache key tr.calls (some qp) e

end HealthVerified

/-! The API gateway's dynamic proxy with per-service circuit breaker
(`src/api-gateway/index.js`). -/

-- Per-service breaker constants (`getCircuitState`).
def FAILURE_THRESHOLD : Nat := 5
def CIRCUIT_RESET_MS : Int := 30000

/-- One entry of `circuitStates`: failure counter, open flag, and the
timestamp of the last failure. -/
structure Circuit where
  failures : Nat
  circuitOpen : Bool
  lastFailureTs : Int
deriving DecidableEq, Repr

/-- The state `getCircuitState` creates on first use of a service name. -/
def initialCircuit : Circuit := ⟨0, false, 0⟩

/-- The failure bookkeeping shared by the discovery-failure branch and the
`onError` proxy hook: increment the counter, stamp the failure time, and
open the circuit when the counter reaches the threshold. -/
def recordFailure (now : Int) (c : Circuit) : Circuit :=
  let f := c.failures + 1
  { failures := f
    circuitOpen := if FAILURE_THRESHOLD ≤ f then true else c.circuitOpen
    lastFailureTs := now }

/-- Folding a sequence of failure signals (each stamped with its time)
into a breaker state. -/
def applyFailures (ts : List Int) (c : Circuit) : Circuit :=
  ts.foldl (fun s t => recordFailure t s) c

/-- Outcome of the resolution step as seen by the proxy handler
(the `{success, service, error}` object of `discoverServiceInstance`). -/
inductive Resolution where
  | ok (svc : ServiceInstance)
  | fail (err : String)
deriving DecidableEq, Repr

/-- Outcome of the proxied forward: an upstream response that is relayed
verbatim, or a transport error (with its `err.code`) handled by `onError`. -/
inductive ForwardOutcome where
  | relayed (statusCode : Nat)
  | connError (errCode : String) (message : String)
deriving DecidableEq, Repr

/-- The response the gateway sends for a proxied route. -/
inductive GatewayResponse where
  | circuitOpen503 (serviceName : String)
  | unavailable503 (serviceName : String) (details : String)
  | proxyError (httpCode : Nat) (serviceName : String) (message : String)
  | upstream (statusCode : Nat)
deriving DecidableEq, Repr

/-- Result of handling one proxied request: response sent, breaker state
afterwards, and whether discovery / the forward were attempted at all. -/
structure ProxyResult where
  response : GatewayResponse
  circuit : Circuit
  discoveryAttempted : Bool
  forwardAttempted : Bool
deriving DecidableEq, Repr

/-- The forwarding step: relay an upstream response unchanged, or run the
`onError` hook (failure signal; 503 for `ECONNREFUSED`, 500 otherwise). -/
def applyForward (now : Int) (serviceName : String) (c : Circuit)
    (fwd : ForwardOutcome) : ProxyResult :=
  match fwd with
  | .relayed statusCode => ⟨.upstream statusCode, c, true, true⟩
  | .connError errCode message =>
    ⟨.proxyError (if errCode = "ECONNREFUSED" then 503 else 500) serviceName message,
      recordFailure now c, true, true⟩

/-- The request handler returned by `createDynamicProxy(serviceName)`:
breaker pre-check (with lazy reset after `CIRCUIT_RESET_MS`), resolution,
optimistic counter reset, then the forward. -/
def createDynamicProxy (serviceName : String) (now : Int) (circuit : Circuit)
    (disc : Resolution) (fwd : ForwardOutcome) : ProxyResult :=
  match (if circuit.circuitOpen then
           (if now - circuit.lastFailureTs > CIRCUIT_RESET_MS then
              some { circuit with circuitOpen := false, failures := 0 }
            else none)
         else some circuit) with
  | none => ⟨.circuitOpen503 serviceName, circuit, false, false⟩
  | some c1 =>
    match disc with
    | .fail err =>
      ⟨.unavailable503 serviceName err, recordFailure now c1, true, false⟩
    | .ok _ =>
      applyForward now serviceName { c1 with failures := 0 } fwd

/-- Result of the gateway's `discoverServiceInstance` helper: outcome,
cache afterwards, and how many `discoverService` resolutions were made. -/
structure GatewayDiscovery where
  result : DiscResult
  cache : Cache
  resolveCalls : Nat
deriving DecidableEq, Repr

/-- `discoverServiceInstance(serviceName)` of the gateway: first a cached,
tag-filtered resolution; if it throws, one retry without tag and with the
cache bypassed. `envTagged`/`envUntagged` are the transport behaviours
seen by the two calls. -/
def discoverServiceInstance (envTagged envUntagged : RegistryEnv RawService)
    (cache : Cache) (serviceName serviceTag : String) (now : Int) (r1 r2 : Nat) :
    GatewayDiscovery :=
  let first := discoverService envTagged cache serviceName (some serviceTag) false now r1
  match first.result with
  | .found svc => ⟨.found svc, first.cache, 1⟩
  | .failed _ =>
    let second := discoverService envUntagged first.cache serviceName none true now r2
    match second.result with
    | .found svc => ⟨.found svc, second.cache, 2⟩
    | .failed e => ⟨.failed e, second.cache, 2⟩

/-! Helper lemmas. -/

/-- A successful first attempt ends `withRetry` immediately. -/
theorem withRetry_start_success {α : Type} (op : Nat → Attempt α) (retries : Nat)
    (d : ℚ) (v : α) (h1 : op 1 = .success v) (hr : 1 ≤ retries) :
    withRetry op retries d = ⟨.success v, 1, []⟩ := by
  obtain ⟨f, rfl⟩ : ∃ f, retries = f + 1 := ⟨retries - 1, by omega⟩
  simp [withRetry, withRetryAux, h1]

/-- When every allowed attempt fails, `withRetryAux` uses all its fuel,
propagates the last error, and waits with exponential back-off after each
non-final attempt. -/
theorem withRetryAux_allFail {α : Type} (op : Nat → Attempt α) :
    ∀ (fuel start : Nat) (d : ℚ), 1 ≤ fuel →
    (∀ n, start ≤ n → n < start + fuel → (op n).isFailure = true) →
    (withRetryAux op start fuel d).calls = fuel
    ∧ (∀ e, op (start + fuel - 1) = .failure e →
        (withRetryAux op start fuel d).result = .failure e)
    ∧ (withRetryAux op start fuel d).waits
        = (List.range (fuel - 1)).map (fun k => d * (3/2) ^ k) := by
  intro fuel
  induction fuel with
  | zero => intro start d h; omega
  | succ f ih =>
    intro start d _ hfail
    have hs : (op start).isFailure = true := hfail start le_rfl (by omega)
    cases hop : op start with
    | success v => rw [hop] at hs; simp [Attempt.isFailure] at hs
    | failure e =>
      by_cases hf : f = 0
      · subst hf
        refine ⟨by simp [withRetryAux, hop], ?_, by simp [withRetryAux, hop]⟩
        intro e' he'
        rw [show start + (0 + 1) - 1 = start by omega, hop] at he'
        injection he' with h
        subst h
        simp [withRetryAux, hop]
      · have hf1 : 1 ≤ f := Nat.one_le_iff_ne_zero.mpr hf
        obtain ⟨ihc, ihr, ihw⟩ :=
          ih (start + 1) (d * (3/2)) hf1 (fun n h1 h2 => hfail n (by omega) (by omega))
        have hunfold : withRetryAux op start (f + 1) d =
            ⟨(withRetryAux op (start + 1) f (d * (3/2))).result,
              (withRetryAux op (start + 1) f (d * (3/2))).calls + 1,
              d :: (withRetryAux op (start + 1) f (d * (3/2))).waits⟩ := by
          simp [withRetryAux, hop, hf]
        refine ⟨by rw [hunfold]; simp [ihc], ?_, ?_⟩
        · intro e' he'
          rw [hunfold]
          exact ihr e' (by rw [show start + 1 + f - 1 = start + (f + 1) - 1 by omega]; exact he')
        · rw [hunfold]
          obtain ⟨f', rfl⟩ : ∃ f', f = f' + 1 := ⟨f - 1, by omega⟩
          simp only [ihw]
          simp only [show f' + 1 + 1 - 1 = f' + 1 by omega, show f' + 1 - 1 = f' by omega]
          rw [List.range_succ_eq_map, List.map_cons, List.map_map]
          congr 1
          · simp
          · refine List.map_congr_left (fun a _ => ?_)
            simp [Function.comp, pow_succ]
            ring

/-- If all attempts before `j` fail and attempt `j` succeeds, the retry
loop stops at attempt `j` with its value. -/
theorem withRetryAux_firstSuccess {α : Type} (op : Nat → Attempt α) (v : α) :
    ∀ (fuel start j : Nat) (d : ℚ), start ≤ j → j < start + fuel →
    (∀ n, start ≤ n → n < j → (op n).isFailure = true) →
    op j = .success v →
    (withRetryAux op start fuel d).result = .success v
    ∧ (withRetryAux op start fuel d).calls = j - start + 1 := by
  intro fuel
  induction fuel with
  | zero => intro start j d h1 h2 _ _; omega
  | succ f ih =>
    intro start j d hsj hjf hfail hj
    by_cases hje : j = start
    · subst hje
      simp [withRetryAux, hj]
    · have hlt : start < j := lt_of_le_of_ne hsj (fun h => hje h.symm)
      have hs : (op start).isFailure = true := hfail start le_rfl hlt
      cases hop : op start with
      | success v' => rw [hop] at hs; simp [Attempt.isFailure] at hs
      | failure e =>
        have hf : f ≠ 0 := by omega
        obtain ⟨ihr, ihc⟩ := ih (start + 1) j (d * (3/2)) (by omega) (by omega)
          (fun n h1 h2 => hfail n (by omega) h2) hj
        have hunfold : withRetryAux op start (f + 1) d =
            ⟨(withRetryAux op (start + 1) f (d * (3/2))).result,
              (withRetryAux op (start + 1) f (d * (3/2))).calls + 1,
              d :: (withRetryAux op (start + 1) f (d * (3/2))).waits⟩ := by
          simp [withRetryAux, hop, hf]
        rw [hunfold]
        exact ⟨ihr, by simp [ihc]; omega⟩

/-- Each failure signal increments the counter by one. -/
theorem applyFailures_failures (ts : List Int) :
    ∀ c : Circuit, (applyFailures ts c).failures = c.failures + ts.length := by
  induction ts with
  | nil => intro c; simp [applyFailures]
  | cons t ts ih =>
    intro c
    have : applyFailures (t :: ts) c = applyFailures ts (recordFailure t c) := by
      simp [applyFailures]
    rw [this, ih]
    simp [recordFailure]
    omega

/-- A nonempty burst of failure signals that brings the counter to the
threshold leaves the breaker open. -/
theorem applyFailures_open (ts : List Int) :
    ∀ c : Circuit, ts ≠ [] → FAILURE_THRESHOLD ≤ c.failures + ts.length →
    (applyFailures ts c).circuitOpen = true := by
  induction ts with
  | nil => intro c hne _; exact absurd rfl hne
  | cons t ts ih =>
    intro c _ hcount
    have hstep : applyFailures (t :: ts) c = applyFailures ts (recordFailure t c) := by
      simp [applyFailures]
    rcases List.eq_nil_or_concat ts with hnil | _
    · subst hnil
      have h5 : FAILURE_THRESHOLD ≤ c.failures + 1 := by
        simpa using hcount
      rw [hstep]
      simp [applyFailures, recordFailure, h5]
    · rename_i hne'
      obtain ⟨l, a, rfl⟩ := hne'
      rw [hstep]
      refine ih (recordFailure t c) (by simp) ?_
      simp [recordFailure] at hcount ⊢
      omega

/-- A closed breaker stays closed while the counter remains below the
threshold. -/
theorem applyFailures_closed (ts : List Int) :
    ∀ c : Circuit, c.circuitOpen = false →
    c.failures + ts.length < FAILURE_THRESHOLD →
    (applyFailures ts c).circuitOpen = false := by
  induction ts with
  | nil => intro c hopen _; simpa [applyFailures] using hopen
  | cons t ts ih =>
    intro c hopen hcount
    have hstep : applyFailures (t :: ts) c = applyFailures ts (recordFailure t c) := by
      simp [applyFailures]
    rw [hstep]
    have hlt : ¬ FAILURE_THRESHOLD ≤ c.failures + 1 := by
      simp at hcount; omega
    refine ih (recordFailure t c) ?_ ?_
    · simp [recordFailure, hlt, hopen]
    · simp [recordFailure] at hcount ⊢; omega

/-- Reading back a freshly written cache entry. -/
theorem cacheGet_cacheSet (cache : Cache) (key : String) (entry : CacheEntry) :
    cacheGet (cacheSet cache key entry) key = some entry := by
  simp [cacheGet, cacheSet, List.find?_cons]

/-! Claim theorems. -/

/-- C8: for every operation wrapped by the retry helper, on a run in which
every attempt fails, the operation is invoked exactly the configured number
of times (default `MAX_RETRIES = 3`), the wait before attempt `k+1` equals
the initial delay times `1.5^(k-1)` (0-indexed below: `waits.getD k`, the
wait after attempt `k+1`, is `d * (3/2)^k`), no wait follows the final
attempt (there are only `retries - 1` waits), and the last error is
propagated; a successful attempt returns immediately with no further
invocations. -/
theorem withRetry_contract {α : Type} (op : Nat → Attempt α) (retries : Nat) (d : ℚ)
    (hr : 1 ≤ retries) :
    MAX_RETRIES = 3
    ∧ ((∀ n, 1 ≤ n → n ≤ retries → (op n).isFailure = true) →
        (withRetry op retries d).calls = retries
        ∧ (∀ e, op retries = .failure e → (withRetry op retries d).result = .failure e)
        ∧ (withRetry op retries d).waits
            = (List.range (retries - 1)).map (fun k => d * (3/2) ^ k)
        ∧ (∀ k, k < retries - 1 → (withRetry op retries d).waits.getD k 0 = d * (3/2) ^ k))
    ∧ (∀ j v, 1 ≤ j → j ≤ retries →
        (∀ n, 1 ≤ n → n < j → (op n).isFailure = true) → op j = .success v →
        (withRetry op retries d).result = .success v
        ∧ (withRetry op retries d).calls = j) := by
  refine ⟨rfl, ?_, ?_⟩
  · intro hfail
    obtain ⟨hc, hres, hw⟩ :=
      withRetryAux_allFail op retries 1 d hr (fun n h1 h2 => hfail n h1 (by omega))
    rw [show 1 + retries - 1 = retries by omega] at hres
    refine ⟨hc, hres, hw, ?_⟩
    intro k hk
    show ((withRetryAux op 1 retries d).waits).getD k 0 = d * (3/2) ^ k
    rw [hw, List.getD_eq_getElem?_getD, List.getElem?_map, List.getElem?_range hk]
    simp
  · intro j v hj1 hjr hprev hj
    obtain ⟨hres, hc⟩ :=
      withRetryAux_firstSuccess op v retries 1 j d hj1 (by omega) hprev hj
    refine ⟨hres, ?_⟩
    show (withRetryAux op 1 retries d).calls = j
    rw [hc]
    omega

/-- C8 witness: three failing attempts with initial delay 1000. -/
theorem withRetry_contract_witness :
    (withRetry (fun _ => (Attempt.failure "boom" : Attempt Nat)) 3 1000).calls = 3
    ∧ (withRetry (fun _ => (Attempt.failure "boom" : Attempt Nat)) 3 1000).result
        = .failure "boom"
    ∧ ((withRetry (fun _ => (Attempt.failure "boom" : Attempt Nat)) 3 1000).waits).getD 1 0
        = 1500 := by
  obtain ⟨-, hall, -⟩ :=
    withRetry_contract (fun _ => (Attempt.failure "boom" : Attempt Nat)) 3 1000 (by decide)
  obtain ⟨hc, hres, _, hidx⟩ := hall (fun n _ _ => rfl)
  refine ⟨hc, hres "boom" rfl, ?_⟩
  rw [hidx 1 (by decide)]
  norm_num

/-- C1: after at least `FAILURE_THRESHOLD = 5` consecutive failure signals
with no intervening success, the breaker is open, and the next proxied
request (arriving within the reset window of the last failure) is answered
with the 503 circuit-open response, with no discovery call and no forward
attempted, whatever the transport would have done. -/
theorem breaker_opens_and_rejects (serviceName : String) (c : Circuit) (ts : List Int)
    (hlen : FAILURE_THRESHOLD ≤ ts.length) (tNext : Int)
    (disc : Resolution) (fwd : ForwardOutcome)
    (hwin : tNext - (applyFailures ts c).lastFailureTs ≤ CIRCUIT_RESET_MS) :
    (applyFailures ts c).circuitOpen = true
    ∧ createDynamicProxy serviceName tNext (applyFailures ts c) disc fwd
        = ⟨.circuitOpen503 serviceName, applyFailures ts c, false, false⟩ := by
  have hne : ts ≠ [] := by
    intro h
    subst h
    simp [FAILURE_THRESHOLD] at hlen
  have hopen := applyFailures_open ts c hne (le_trans hlen (Nat.le_add_left _ _))
  have hng : ¬ (CIRCUIT_RESET_MS < tNext - (applyFailures ts c).lastFailureTs) :=
    not_lt.mpr hwin
  exact ⟨hopen, by simp [createDynamicProxy, hopen, hng]⟩

/-- C1 witness: five discovery failures at time 0 open the breaker; a 6th
request at time 0 is rejected without discovery or forward. -/
theorem breaker_opens_and_rejects_witness :
    (applyFailures [0, 0, 0, 0, 0] initialCircuit).circuitOpen = true
    ∧ createDynamicProxy "auth-service" 0 (applyFailures [0, 0, 0, 0, 0] initialCircuit)
        (.fail "no instances") (.relayed 200)
        = ⟨.circuitOpen503 "auth-service",
            applyFailures [0, 0, 0, 0, 0] initialCircuit, false, false⟩ :=
  breaker_opens_and_rejects "auth-service" initialCircuit [0, 0, 0, 0, 0]
    (by decide) 0 (.fail "no instances") (.relayed 200) (by decide)

/-- A concrete auth-service instance used in witnesses. -/
def authInstance : ServiceInstance :=
  ⟨"auth-service-host-3001", "auth-service", "10.0.0.7", 3001, ["development"]⟩

/-- C2 counterexample: the reset check is strict (`waited > CIRCUIT_RESET_MS`),
so at exactly `t = lastFailureTime + CIRCUIT_RESET_TIMEOUT` (here `30000` with
`lastFailureTs = 0`) the request is still answered with the circuit-open
response and no downstream call is made, contradicting the claim that the
breaker re-attempts at the boundary. -/
theorem resetTimeout_boundary_counterexample :
    createDynamicProxy "auth-service" 30000 ⟨5, true, 0⟩
        (.ok authInstance) (.relayed 200)
      = ⟨.circuitOpen503 "auth-service", ⟨5, true, 0⟩, false, false⟩ := by
  decide

/-- C2 (amended): a request against an OPEN breaker at time `now` is
rejected with the 503 circuit-open response and no downstream call whenever
`now ≤ lastFailureTime + CIRCUIT_RESET_TIMEOUT` (boundary included), and
only strictly past that bound does the breaker flip to CLOSED with the
counter cleared to 0 and let the request proceed; a subsequent successful
resolution and forward leaves the counter at 0. -/
theorem openBreaker_reset_gate (serviceName : String) (now : Int) (c : Circuit)
    (disc : Resolution) (fwd : ForwardOutcome) (hopen : c.circuitOpen = true) :
    (now - c.lastFailureTs ≤ CIRCUIT_RESET_MS →
        createDynamicProxy serviceName now c disc fwd
          = ⟨.circuitOpen503 serviceName, c, false, false⟩)
    ∧ (CIRCUIT_RESET_MS < now - c.lastFailureTs →
        (createDynamicProxy serviceName now c disc fwd).discoveryAttempted = true
        ∧ ∀ svc n, createDynamicProxy serviceName now c (.ok svc) (.relayed n)
            = ⟨.upstream n, ⟨0, false, c.lastFailureTs⟩, true, true⟩) := by
  constructor
  · intro hle
    have hng : ¬ (CIRCUIT_RESET_MS < now - c.lastFailureTs) := not_lt.mpr hle
    simp [createDynamicProxy, hopen, hng]
  · intro hgt
    constructor
    · cases disc with
      | fail e => simp [createDynamicProxy, hopen, hgt]
      | ok svc =>
        cases fwd <;> simp [createDynamicProxy, hopen, hgt, applyForward]
    · intro svc n
      simp [createDynamicProxy, hopen, hgt, applyForward]

/-- C2 witness: an OPEN breaker (last failure at 0) evaluated at 30001 lets
the request through with the counter cleared. -/
theorem openBreaker_reset_gate_witness :
    createDynamicProxy "auth-service" 30001 ⟨5, true, 0⟩
        (.ok authInstance) (.relayed 200)
      = ⟨.upstream 200, ⟨0, false, 0⟩, true, true⟩ := by
  have h := (openBreaker_reset_gate "auth-service" 30001 ⟨5, true, 0⟩
    (.ok authInstance) (.relayed 200) rfl).2 (by decide)
  exact h.2 authInstance 200

/-- C5: when the pre-check passes and resolution succeeds, the handler runs
the forward on a breaker state whose failure counter is already 0 — the
reset happens before the forward and is independent of the forward's
outcome — and the forward is indeed attempted. -/
theorem resolution_resets_counter (serviceName : String) (now : Int) (c : Circuit)
    (svc : ServiceInstance) (fwd : ForwardOutcome)
    (hpass : c.circuitOpen = false ∨ CIRCUIT_RESET_MS < now - c.lastFailureTs) :
    createDynamicProxy serviceName now c (.ok svc) fwd
      = applyForward now serviceName ⟨0, false, c.lastFailureTs⟩ fwd
    ∧ (createDynamicProxy serviceName now c (.ok svc) fwd).forwardAttempted = true := by
  have hmain : createDynamicProxy serviceName now c (.ok svc) fwd
      = applyForward now serviceName ⟨0, false, c.lastFailureTs⟩ fwd := by
    by_cases hco : c.circuitOpen
    · rcases hpass with hcl | hgt
      · rw [hco] at hcl; exact absurd hcl (by simp)
      · simp [createDynamicProxy, hco, hgt]
    · simp only [Bool.not_eq_true] at hco
      simp [createDynamicProxy, hco]
  refine ⟨hmain, ?_⟩
  rw [hmain]
  cases fwd <;> simp [applyForward]

/-- C5 witness: with three failures on the counter and a closed breaker,
a successful resolution followed by a refused connection runs the forward
from a zeroed counter. -/
theorem resolution_resets_counter_witness :
    createDynamicProxy "search-service" 1000 ⟨3, false, 0⟩ (.ok authInstance)
        (.connError "ECONNREFUSED" "connect ECONNREFUSED")
      = applyForward 1000 "search-service" ⟨0, false, 0⟩
          (.connError "ECONNREFUSED" "connect ECONNREFUSED")
    ∧ (createDynamicProxy "search-service" 1000 ⟨3, false, 0⟩ (.ok authInstance)
        (.connError "ECONNREFUSED" "connect ECONNREFUSED")).forwardAttempted = true :=
  resolution_resets_counter "search-service" 1000 ⟨3, false, 0⟩ authInstance
    (.connError "ECONNREFUSED" "connect ECONNREFUSED") (Or.inl rfl)

/-- C10: an OPEN breaker past the reset timeout clears its counter before
the new attempt, so a single failed re-attempt — a discovery failure or a
forward error — leaves the counter at 1 with the breaker CLOSED; from the
cleared state, the breaker re-opens exactly when `FAILURE_THRESHOLD` fresh
consecutive failure signals accumulate. -/
theorem reset_attempt_failure_stays_closed (serviceName : String) (now : Int)
    (c : Circuit) (e : String) (svc : ServiceInstance) (ec m : String)
    (fwd : ForwardOutcome)
    (hopen : c.circuitOpen = true) (hgt : CIRCUIT_RESET_MS < now - c.lastFailureTs) :
    createDynamicProxy serviceName now c (.fail e) fwd
      = ⟨.unavailable503 serviceName e, ⟨1, false, now⟩, true, false⟩
    ∧ createDynamicProxy serviceName now c (.ok svc) (.connError ec m)
      = ⟨.proxyError (if ec = "ECONNREFUSED" then 503 else 500) serviceName m,
          ⟨1, false, now⟩, true, true⟩
    ∧ ∀ ts : List Int,
        (applyFailures ts ⟨0, false, c.lastFailureTs⟩).circuitOpen = true
          ↔ FAILURE_THRESHOLD ≤ ts.length := by
  refine ⟨?_, ?_, ?_⟩
  · simp [createDynamicProxy, hopen, hgt, recordFailure, FAILURE_THRESHOLD]
  · simp [createDynamicProxy, hopen, hgt, applyForward, recordFailure, FAILURE_THRESHOLD]
  · intro ts
    constructor
    · intro hopen'
      by_contra hnot
      have hlen : ts.length < FAILURE_THRESHOLD := Nat.lt_of_not_le hnot
      have hcl := applyFailures_closed ts ⟨0, false, c.lastFailureTs⟩ rfl
        (by simpa using hlen)
      simp [hopen'] at hcl
    · intro hlen
      refine applyFailures_open ts _ ?_ (by simpa using hlen)
      intro hnil
      rw [hnil] at hlen
      simp [FAILURE_THRESHOLD] at hlen

/-- C10 witness: breaker open since 0, re-attempt at 30001 fails by
discovery and by forward; five fresh failures are needed to re-open. -/
theorem reset_attempt_failure_stays_closed_witness :
    createDynamicProxy "auth-service" 30001 ⟨5, true, 0⟩ (.fail "no instances")
        (.relayed 200)
      = ⟨.unavailable503 "auth-service" "no instances", ⟨1, false, 30001⟩, true, false⟩
    ∧ createDynamicProxy "auth-service" 30001 ⟨5, true, 0⟩ (.ok authInstance)
        (.connError "ECONNREFUSED" "connect ECONNREFUSED")
      = ⟨.proxyError (if "ECONNREFUSED" = "ECONNREFUSED" then 503 else 500)
            "auth-service" "connect ECONNREFUSED", ⟨1, false, 30001⟩, true, true⟩
    ∧ ∀ ts : List Int,
        (applyFailures ts ⟨0, false, (0:Int)⟩).circuitOpen = true
          ↔ FAILURE_THRESHOLD ≤ ts.length :=
  reset_attempt_failure_stays_closed "auth-service" 30001 ⟨5, true, 0⟩ "no instances"
    authInstance "ECONNREFUSED" "connect ECONNREFUSED" (.relayed 200) rfl (by decide)

/-- A concrete raw catalog record used in witnesses. -/
def searchRaw : RawService :=
  ⟨"search-service-host-9000", "search-service", "10.0.0.5", "10.0.0.5", 9000,
    some ["development"]⟩

/-- A concrete raw catalog record whose extraction is `authInstance`. -/
def authRaw : RawService :=
  ⟨"auth-service-host-3001", "auth-service", "10.0.0.7", "10.0.0.7", 3001,
    some ["development"]⟩

/-- C3: with `bypassCache = false`, a fresh cache entry is returned with
zero registry queries; on a cache miss with a registry that answers on the
first attempt, exactly one live query is issued and the result is cached,
so a second resolve within the TTL makes no further query (one query
across both calls), while a resolve after TTL expiry issues a second live
query. -/
theorem cache_round_trip (env env2 env3 : RegistryEnv RawService) (cache : Cache)
    (serviceName : String) (tag : Option String) (now now2 now3 : Int)
    (r : Nat) (l : List RawService) :
    (∀ entry, cacheGet cache (cacheKey serviceName tag) = some entry →
        entry.timestamp > now - CACHE_TTL_MS →
        discoverService env cache serviceName tag false now r
          = ⟨.found entry.service, cache, 0, none⟩)
    ∧ (cacheGet cache (cacheKey serviceName tag) = none →
        env.consulErr = none → env.nodes 1 = .success l → l ≠ [] →
        (discoverService env cache serviceName tag false now r).liveQueries = 1
        ∧ (discoverService env cache serviceName tag false now r).cache
            = cacheSet cache (cacheKey serviceName tag) ⟨selectInstance l r, now⟩
        ∧ (discoverService env cache serviceName tag false now r).result
            = .found (selectInstance l r)
        ∧ (now > now2 - CACHE_TTL_MS →
            discoverService env2
                (cacheSet cache (cacheKey serviceName tag) ⟨selectInstance l r, now⟩)
                serviceName tag false now2 r
              = ⟨.found (selectInstance l r),
                  cacheSet cache (cacheKey serviceName tag) ⟨selectInstance l r, now⟩,
                  0, none⟩)
        ∧ (¬ (now > now3 - CACHE_TTL_MS) → env3.consulErr = none →
            env3.nodes 1 = .success l →
            (discoverService env3
                (cacheSet cache (cacheKey serviceName tag) ⟨selectInstance l r, now⟩)
                serviceName tag false now3 r).liveQueries = 1)) := by
  constructor
  · intro entry hget hfresh
    simp [discoverService, freshCacheHit, hget, hfresh]
  · intro hget hup hn1 hl
    have hlen : ¬ (l.length = 0) := by simpa [List.length_eq_zero] using hl
    have hop : nodesOp env serviceName 1 = .success l := by
      simp [nodesOp, hn1, hlen]
    have hq : liveQuery env serviceName = ⟨.success l, 1, []⟩ :=
      withRetry_start_success _ MAX_RETRIES RETRY_DELAY_MS l hop (by decide)
    refine ⟨?_, ?_, ?_, ?_, ?_⟩
    · simp [discoverService, freshCacheHit, hget, hup, hq]
    · simp [discoverService, freshCacheHit, hget, hup, hq]
    · simp [discoverService, freshCacheHit, hget, hup, hq]
    · intro hfresh2
      simp [discoverService, freshCacheHit, cacheGet_cacheSet, hfresh2]
    · intro hstale hup3 hn3
      have hop3 : nodesOp env3 serviceName 1 = .success l := by
        simp [nodesOp, hn3, hlen]
      have hq3 : liveQuery env3 serviceName = ⟨.success l, 1, []⟩ :=
        withRetry_start_success _ MAX_RETRIES RETRY_DELAY_MS l hop3 (by decide)
      simp [discoverService, freshCacheHit, cacheGet_cacheSet, hstale, hup3, hq3]

/-- C3 witness: one instance of `search-service`; resolves at 0, 1000 and
6000 ms with TTL 5000. -/
theorem cache_round_trip_witness :
    (discoverService ⟨none, fun _ => .success [searchRaw]⟩ [] "search-service"
        none false 0 0).liveQueries = 1
    ∧ discoverService ⟨none, fun _ => .success [searchRaw]⟩
        (cacheSet [] (cacheKey "search-service" none)
          ⟨selectInstance [searchRaw] 0, 0⟩) "search-service" none false 1000 0
      = ⟨.found (selectInstance [searchRaw] 0),
          cacheSet [] (cacheKey "search-service" none)
            ⟨selectInstance [searchRaw] 0, 0⟩, 0, none⟩
    ∧ (discoverService ⟨none, fun _ => .success [searchRaw]⟩
        (cacheSet [] (cacheKey "search-service" none)
          ⟨selectInstance [searchRaw] 0, 0⟩) "search-service" none false 6000 0).liveQueries
      = 1 := by
  have h := (cache_round_trip ⟨none, fun _ => .success [searchRaw]⟩
      ⟨none, fun _ => .success [searchRaw]⟩ ⟨none, fun _ => .success [searchRaw]⟩
      [] "search-service" none 0 1000 6000 0 [searchRaw]).2
      rfl rfl rfl (by decide)
  exact ⟨h.1, h.2.2.2.1 (by decide), h.2.2.2.2 (by decide) rfl rfl⟩

/-- C4: whenever the live path is reached (cache bypassed, missing or
stale) and the live query fails — Consul unreachable or every retried
lookup failing or empty — resolve returns the instance of any cache entry
for the key, however stale, with the cache left unchanged, for both values
of `bypassCache`; only with no cache entry at all does it fail, with an
error naming the service. -/
theorem stale_fallback (env : RegistryEnv RawService) (cache : Cache)
    (serviceName : String) (tag : Option String) (bypassCache : Bool) (now : Int)
    (r : Nat)
    (hreach : bypassCache = true
        ∨ freshCacheHit cache (cacheKey serviceName tag) now = none)
    (hfail : env.consulErr ≠ none
        ∨ ∃ e, (liveQuery env serviceName).result = .failure e) :
    (∀ entry, cacheGet cache (cacheKey serviceName tag) = some entry →
        (discoverService env cache serviceName tag bypassCache now r).result
          = .found entry.service
        ∧ (discoverService env cache serviceName tag bypassCache now r).cache = cache)
    ∧ (cacheGet cache (cacheKey serviceName tag) = none →
        ∃ msg, (discoverService env cache serviceName tag bypassCache now r).result
          = .failed ("Service discovery failed for " ++ serviceName ++ ": " ++ msg)) := by
  have hmiss : (if bypassCache then none
      else freshCacheHit cache (cacheKey serviceName tag) now) = none := by
    rcases hreach with h | h
    · simp [h]
    · cases bypassCache <;> simp [h]
  rcases hce : env.consulErr with _ | msg
  · have he : ∃ e, (liveQuery env serviceName).result = .failure e := by
      rcases hfail with h | h
      · exact absurd hce h
      · exact h
    obtain ⟨e, he⟩ := he
    constructor
    · intro entry hget
      constructor <;> simp [discoverService, hmiss, hce, he, discoveryFallback, hget]
    · intro hget
      exact ⟨e, by simp [discoverService, hmiss, hce, he, discoveryFallback, hget]⟩
  · constructor
    · intro entry hget
      constructor <;> simp [discoverService, hmiss, hce, discoveryFallback, hget]
    · intro hget
      exact ⟨msg, by simp [discoverService, hmiss, hce, discoveryFallback, hget]⟩

/-- C4 witness: Consul down, `bypassCache = true`, and a long-expired cache
entry for `auth-service` is still served, with the cache unchanged. -/
theorem stale_fallback_witness :
    (discoverService ⟨some "consul down", fun _ => .failure "consul down"⟩
        [("auth-service-default", ⟨authInstance, -100000⟩)]
        "auth-service" none true 0 0).result = .found authInstance
    ∧ (discoverService ⟨some "consul down", fun _ => .failure "consul down"⟩
        [("auth-service-default", ⟨authInstance, -100000⟩)]
        "auth-service" none true 0 0).cache
      = [("auth-service-default", ⟨authInstance, -100000⟩)] :=
  (stale_fallback ⟨some "consul down", fun _ => .failure "consul down"⟩
      [("auth-service-default", ⟨authInstance, -100000⟩)]
      "auth-service" none true 0 0 (Or.inl rfl) (Or.inl (by simp))).1
    ⟨authInstance, -100000⟩ rfl

/-- C7: whenever resolve misses the fresh cache and Consul is reachable,
the registry query issued asks the catalog for all instances of the
service in the configured datacenter with no health filtering
(`passingOnly = false`) and carries the tag filter exactly as given —
`none` stays `none`, no default tag is substituted. -/
theorem query_shape (env : RegistryEnv RawService) (cache : Cache)
    (serviceName : String) (tag : Option String) (bypassCache : Bool) (now : Int)
    (r : Nat)
    (hreach : bypassCache = true
        ∨ freshCacheHit cache (cacheKey serviceName tag) now = none)
    (hup : env.consulErr = none) :
    (discoverService env cache serviceName tag bypassCache now r).query
      = some ⟨serviceName, DATACENTER, tag, false⟩ := by
  have hmiss : (if bypassCache then none
      else freshCacheHit cache (cacheKey serviceName tag) now) = none := by
    rcases hreach with h | h
    · simp [h]
    · cases bypassCache <;> simp [h]
  cases htr : (liveQuery env serviceName).result with
  | success l => simp [discoverService, hmiss, hup, htr]
  | failure e =>
    cases hget : cacheGet cache (cacheKey serviceName tag) <;>
      simp [discoverService, hmiss, hup, htr, discoveryFallback, hget]

/-- C7 witness: an untagged miss queries the catalog with no tag filter
and no health filtering. -/
theorem query_shape_witness :
    (discoverService ⟨none, fun _ => .success [searchRaw]⟩ [] "search-service"
        none false 0 0).query
      = some ⟨"search-service", DATACENTER, none, false⟩ :=
  query_shape ⟨none, fun _ => .success [searchRaw]⟩ [] "search-service" none
    false 0 0 (Or.inr rfl) rfl

/-- C6 counterexample: when the tagged lookup fails (all transport attempts
time out, no cache) and the untagged bypass-cache retry succeeds, the
gateway's `discoverServiceInstance` makes two resolution attempts within
the single request and turns the first failure into a success — so the
first failure is not terminal, and more than one resolution attempt with
different lookup parameters occurs. -/
theorem single_resolution_counterexample :
    (discoverServiceInstance ⟨none, fun _ => .failure "timeout"⟩
        ⟨none, fun _ => .success [authRaw]⟩ [] "auth-service" "development"
        0 0 0).resolveCalls = 2
    ∧ (discoverServiceInstance ⟨none, fun _ => .failure "timeout"⟩
        ⟨none, fun _ => .success [authRaw]⟩ [] "auth-service" "development"
        0 0 0).result = .found authInstance := by
  decide

/-- C6 (amended): each proxied request makes at most two resolution
attempts — one tagged, cache-honouring resolution and, only on its
failure, one untagged resolution with the cache bypassed; a first-attempt
success ends discovery after a single resolution, and when both attempts
fail the request's discovery fails with the second attempt's error (the
retry's failure is terminal). -/
theorem at_most_two_resolutions (envT envU : RegistryEnv RawService) (cache : Cache)
    (serviceName serviceTag : String) (now : Int) (r1 r2 : Nat) :
    (discoverServiceInstance envT envU cache serviceName serviceTag now r1 r2).resolveCalls
      ≤ 2
    ∧ (∀ svc,
        (discoverService envT cache serviceName (some serviceTag) false now r1).result
          = .found svc →
        discoverServiceInstance envT envU cache serviceName serviceTag now r1 r2
          = ⟨.found svc,
              (discoverService envT cache serviceName (some serviceTag) false now r1).cache,
              1⟩)
    ∧ (∀ e1 e2,
        (discoverService envT cache serviceName (some serviceTag) false now r1).result
          = .failed e1 →
        (discoverService envU
            (discoverService envT cache serviceName (some serviceTag) false now r1).cache
            serviceName none true now r2).result = .failed e2 →
        (discoverServiceInstance envT envU cache serviceName serviceTag now r1 r2).result
          = .failed e2
        ∧ (discoverServiceInstance envT envU cache serviceName serviceTag now r1 r2).resolveCalls
          = 2) := by
  refine ⟨?_, ?_, ?_⟩
  · cases h1 : (discoverService envT cache serviceName (some serviceTag) false now r1).result with
    | found svc => simp [discoverServiceInstance, h1]
    | failed e =>
      cases h2 : (discoverService envU
          (discoverService envT cache serviceName (some serviceTag) false now r1).cache
          serviceName none true now r2).result with
      | found svc => simp [discoverServiceInstance, h1, h2]
      | failed e2 => simp [discoverServiceInstance, h1, h2]
  · intro svc h1
    simp [discoverServiceInstance, h1]
  · intro e1 e2 h1 h2
    simp [discoverServiceInstance, h1, h2]

/-- C6 witness: with Consul down for both attempts and an empty cache, the
request makes its two attempts and fails with the second attempt's error. -/
theorem at_most_two_resolutions_witness :
    (discoverServiceInstance ⟨some "consul down", fun _ => .failure "consul down"⟩
        ⟨some "consul down", fun _ => .failure "consul down"⟩ [] "search-service"
        "development" 0 0 0).resolveCalls ≤ 2
    ∧ (discoverServiceInstance ⟨some "consul down", fun _ => .failure "consul down"⟩
        ⟨some "consul down", fun _ => .failure "consul down"⟩ [] "search-service"
        "development" 0 0 0).result
      = .failed "Service discovery failed for search-service: consul down" := by
  have h := at_most_two_resolutions
    ⟨some "consul down", fun _ => .failure "consul down"⟩
    ⟨some "consul down", fun _ => .failure "consul down"⟩ [] "search-service"
    "development" 0 0 0
  exact ⟨h.1,
    (h.2.2 "Service discovery failed for search-service: consul down"
      "Service discovery failed for search-service: consul down"
      (by decide) (by decide)).1⟩

/-- C9 counterexample: in the health-verifying revision, a registry
resolution that returns an instance whose direct liveness probe is
negative yields an outright discovery failure (the thrown
`No verified healthy instances` error) — no "needs verification" result is
ever reported to the caller. -/
theorem needs_verification_counterexample :
    (HealthVerified.discoverService ⟨none, fun _ => .success [authInstance]⟩
        (fun _ => false) [] "auth-service" none false 0 0).result
      = .failed
          "Service discovery failed: No verified healthy instances of auth-service found"
    ∧ (HealthVerified.discoverService ⟨none, fun _ => .success [authInstance]⟩
        (fun _ => false) [] "auth-service" none false 0 0).cache = [] := by
  decide

/-- C9 (amended): when the health-verifying resolve reaches the live path,
the registry answers with instances, and every returned instance fails the
direct liveness probe, the caller gets no "needs verification" report: the
call returns the instance of any cache entry for the key if one exists,
and otherwise fails outright with the `No verified healthy instances`
error; in both cases the verification failure leaves the cache unmutated. -/
theorem verification_failure_behaviour (env : RegistryEnv ServiceInstance)
    (healthy : ServiceInstance → Bool) (cache : Cache) (serviceName : String)
    (tag : Option String) (bypassCache : Bool) (now : Int) (r : Nat)
    (l : List ServiceInstance)
    (hreach : bypassCache = true
        ∨ freshCacheHit cache (cacheKey serviceName tag) now = none)
    (hup : env.consulErr = none)
    (hq : (HealthVerified.liveQuery env serviceName).result = .success l)
    (hverify : l.filter healthy = []) :
    (HealthVerified.discoverService env healthy cache serviceName tag bypassCache
        now r).cache = cache
    ∧ (∀ entry, cacheGet cache (cacheKey serviceName tag) = some entry →
        (HealthVerified.discoverService env healthy cache serviceName tag bypassCache
            now r).result = .found entry.service)
    ∧ (cacheGet cache (cacheKey serviceName tag) = none →
        (HealthVerified.discoverService env healthy cache serviceName tag bypassCache
            now r).result
          = .failed ("Service discovery failed: "
              ++ ("No verified healthy instances of " ++ serviceName ++ " found"))) := by
  have hmiss : (if bypassCache then none
      else freshCacheHit cache (cacheKey serviceName tag) now) = none := by
    rcases hreach with h | h
    · simp [h]
    · cases bypassCache <;> simp [h]
  refine ⟨?_, ?_, ?_⟩
  · cases hget : cacheGet cache (cacheKey serviceName tag) <;>
      simp [HealthVerified.discoverService, hmiss, hup, hq, hverify,
        HealthVerified.fallback, hget]
  · intro entry hget
    simp [HealthVerified.discoverService, hmiss, hup, hq, hverify,
      HealthVerified.fallback, hget]
  · intro hget
    simp [HealthVerified.discoverService, hmiss, hup, hq, hverify,
      HealthVerified.fallback, hget]

/-- C9 witness: registry returns one instance, its probe is negative, and a
stale cache entry exists: the stale instance is served and the cache is
untouched. -/
theorem verification_failure_behaviour_witness :
    (HealthVerified.discoverService ⟨none, fun _ => .success [authInstance]⟩
        (fun _ => false) [("auth-service-default", ⟨authInstance, -100000⟩)]
        "auth-service" none true 0 0).cache
      = [("auth-service-default", ⟨authInstance, -100000⟩)]
    ∧ (HealthVerified.discoverService ⟨none, fun _ => .success [authInstance]⟩
        (fun _ => false) [("auth-service-default", ⟨authInstance, -100000⟩)]
        "auth-service" none true 0 0).result = .found authInstance := by
  have h := verification_failure_behaviour ⟨none, fun _ => .success [authInstance]⟩
    (fun _ => false) [("auth-service-default", ⟨authInstance, -100000⟩)]
    "auth-service" none true 0 0 [authInstance] (Or.inl rfl) rfl (by decide) rfl
  exact ⟨h.1, h.2.1 ⟨authInstance, -100000⟩ rfl⟩

end SE3
